import Mathlib

/-
Verification of the type-value and metafunction-lifting facility of
include/boost/hana/fwd/type.hpp.

The header represents a C++ type T by the object type<T>, an instance of the
empty class _type<T>::_ whose nested member is T, and provides adapters
lifting type-level transformers into callables on such objects.  We embed the
compile-time world shallowly: a deep syntax CppType of the C++ types the
claims mention, compile-time objects carrying a static type together with a
runtime representation payload, nested member lookup as a total function into
Option (a missing nested member is a C++ compile error), and each call
operator of the header as a Lean function translated line by line.
-/

namespace Hana

/-- Deep syntax of the C++ types needed by the claims: a few scalar types, a
pointer former, the standard integral_constant over Bool, an instantiation of
the standard is_same template, and the wrapper class of the header whose
instance is the object representing a type. -/
inductive CppType where
  | intT
  | doubleT
  | charT
  | voidT
  | ptr (t : CppType)
  | integralConstantBool (b : Bool)
  | isSameT (a b : CppType)
  | typeTag (t : CppType)
deriving DecidableEq

/-- A compile-time C++ object: its static type and a payload standing for the
runtime representation of the object, so that two distinct objects of one type
can be told apart. -/
structure Object where
  ty : CppType
  val : Nat
deriving DecidableEq

/-- The variable template of the header, lines 242 and 243: type T is the
default-constructed instance of the wrapper class whose nested member is T. -/
def type (T : CppType) : Object :=
  Object.mk (CppType.typeTag T) 0

/-- Nested member lookup on a C++ type.  The wrapper class of line 236
exposes the wrapped type; following the standard library, integral_constant
exposes itself and an is_same instantiation exposes the integral_constant of
its value.  Every other type of the syntax has no nested member, which in C++
is a compile error at the point of use. -/
def memberType : CppType → Option CppType
  | CppType.typeTag t => some t
  | CppType.integralConstantBool b => some (CppType.integralConstantBool b)
  | CppType.isSameT a b => some (CppType.integralConstantBool (decide (a = b)))
  | _ => none

/-- Pack expansion over the nested members of the static types of the
arguments, as written in each call operator of the header; the whole call is
a compile error as soon as one argument lacks the nested member. -/
def memberTypes : List Object → Option (List CppType)
  | [] => some []
  | x :: xs =>
    (memberType x.ty).bind (fun t => (memberTypes xs).map (fun ts => t :: ts))

/-- Call operator of the template lifter, lines 332 to 334: it returns the
type-value of the transformer instantiated on the nested members of the
argument types. -/
def template_ (f : List CppType → CppType) (xs : List Object) : Option Object :=
  (memberTypes xs).map (fun ts => type (f ts))

/-- Classical-style application of the template lifter, lines 327 to 330: the
nested member of its apply instantiation is the transformer instantiation
itself. -/
def template_apply (f : List CppType → CppType) (xs : List CppType) : CppType :=
  f xs

/-- Call operator of the metafunction lifter, lines 367 to 369: it returns
the type-value of the nested member of the transformer instantiated on the
nested members of the argument types. -/
def metafunction (f : List CppType → CppType) (xs : List Object) : Option Object :=
  (memberTypes xs).bind (fun ts => (memberType (f ts)).map type)

/-- Classical-style application of the metafunction lifter, lines 364 and
365: an alias for the transformer instantiation, whose own nested member is
then looked up. -/
def metafunction_apply (f : List CppType → CppType) (xs : List CppType) : CppType :=
  f xs

/-- An MPL-style metafunction class: a value-like entity exposing a nested
apply template, as required by the lifter of lines 394 to 410. -/
structure MetafunctionClass where
  apply : List CppType → CppType

/-- Call operator of the metafunction class lifter, lines 401 to 406: the
transformer is invoked through its nested apply member and the nested member
of the result is wrapped as a type-value. -/
def metafunction_class (F : MetafunctionClass) (xs : List Object) : Option Object :=
  (memberTypes xs).bind (fun ts => (memberType (F.apply ts)).map type)

/-- Classical-style application of the metafunction class lifter, lines 398
and 399: an alias for the nested apply instantiation of the wrapped entity. -/
def metafunction_class_apply (F : MetafunctionClass) (xs : List CppType) : CppType :=
  F.apply xs

/-- Default construction of an object of a given type, as in the braces of
the trait lifters; the payload of a freshly default-constructed object is
zero. -/
def defaultConstruct (t : CppType) : Object :=
  Object.mk t 0

/-- Call operator of the trait lifter, lines 456 to 458: it returns a
default-constructed instance of the transformer applied to the nested
members of the argument types, not a type-value. -/
def trait (f : List CppType → CppType) (xs : List Object) : Option Object :=
  (memberTypes xs).map (fun ts => defaultConstruct (f ts))

/-- Call operator of the second trait lifter, lines 483 to 485: the
transformer is applied to the static types of the arguments themselves,
composing an extra type-of step before application. -/
def trait_ (f : List CppType → CppType) (xs : List Object) : Object :=
  defaultConstruct (f (xs.map Object.ty))

/-- Call operator of lines 256 to 262: it returns the type-value of the
static type of its argument, ignoring the argument value. -/
def decltype_ (x : Object) : Object :=
  type x.ty

/-- Value category of a C++ expression, as far as the unary plus operator of
line 238 is concerned. -/
inductive ValueCategory where
  | lvalue
  | rvalue
deriving DecidableEq

/-- An expression denoting an object: its value category and the object it
denotes. -/
structure TypeExpr where
  cat : ValueCategory
  val : Object
deriving DecidableEq

/-- The unary plus operator of line 238: a const member callable on either
value category, returning a copy of the object itself as an rvalue. -/
def opPlus (e : TypeExpr) : TypeExpr :=
  TypeExpr.mk ValueCategory.rvalue e.val

/-- Modelled from the spec: the Comparable equality of type-values.  Its
implementation is outside this header, which only declares the Comparable
capability on line 221 and documents on lines 195 and 196 that two type
values are equal iff they represent the same C++ type; so equality compares
the static types of the two objects. -/
def typeEqual (a b : Object) : Bool :=
  decide (a.ty = b.ty)

/-- Compile-time boolean value of a constant type, following the standard
library: integral_constant carries its Bool, an is_same instantiation carries
whether its two arguments are identical, and other types are not boolean
constants. -/
def constValue : CppType → Option Bool
  | CppType.integralConstantBool b => some b
  | CppType.isSameT a b => some (decide (a = b))
  | _ => none

/-- The standard is_same template as a binary type transformer.  Applying it
to any other number of arguments is a compile error in C++; that arm is
mapped to void and is unreachable in well-formed use. -/
def is_same : List CppType → CppType
  | [a, b] => CppType.isSameT a b
  | _ => CppType.voidT

theorem memberTypes_map_type (xs : List CppType) :
    memberTypes (List.map type xs) = some xs := by
  induction xs with
  | nil => rfl
  | cons a l ih => simp [memberTypes, type, memberType, ih]

theorem memberTypes_congr (xs ys : List Object)
    (h : List.map Object.ty xs = List.map Object.ty ys) :
    memberTypes xs = memberTypes ys := by
  induction xs generalizing ys with
  | nil =>
    cases ys with
    | nil => rfl
    | cons b m => simp at h
  | cons a l ih =>
    cases ys with
    | nil => simp at h
    | cons b m =>
      simp only [List.map_cons, List.cons.injEq] at h
      simp [memberTypes, h.1, ih m h.2]

/-- C1: for every pair of types A and B, the type-value of A equals the
type-value of B iff A and B are the identical type, both as plain object
equality and under the Comparable equality of the facility, and this
equality agrees with the standard is_same type-identity relation. -/
theorem C1_type_value_equality (A B : CppType) :
    (type A = type B ↔ A = B) ∧
    (typeEqual (type A) (type B) = true ↔ A = B) ∧
    (typeEqual (type A) (type B) = true ↔
      constValue (CppType.isSameT A B) = some true) := by
  refine ⟨?_, ?_, ?_⟩ <;> simp [type, typeEqual, constValue]

/-- C2: for every metafunction-value produced by the template, metafunction
or metafunction class lifters and every sequence of types, calling it on the
corresponding type-values yields exactly the type-value wrapping the nested
result type of its classical-style application on those types. -/
theorem C2_call_agrees_with_apply (f : List CppType → CppType)
    (F : MetafunctionClass) (xs : List CppType) :
    template_ f (List.map type xs) = some (type (template_apply f xs)) ∧
    metafunction f (List.map type xs) =
      (memberType (metafunction_apply f xs)).map type ∧
    metafunction_class F (List.map type xs) =
      (memberType (metafunction_class_apply F xs)).map type := by
  refine ⟨?_, ?_, ?_⟩ <;>
    simp [template_, metafunction, metafunction_class, template_apply,
      metafunction_apply, metafunction_class_apply, memberTypes_map_type]

/-- C3: invoking the template lifter on the type-values of a sequence of
types yields exactly the type-value of the transformer instantiated on those
types, which is also the type-value wrapping the nested member of the
classical-style application. -/
theorem C3_template_lifter (f : List CppType → CppType) (xs : List CppType) :
    template_ f (List.map type xs) = some (type (f xs)) ∧
    type (template_apply f xs) = type (f xs) := by
  refine ⟨?_, rfl⟩
  simp [template_, memberTypes_map_type]

/-- C4: for an MPL-style metafunction whose instantiation on the given types
exposes the nested result R, invoking the metafunction lifter on the
corresponding type-values yields the type-value of R, one level of nested
lookup stripped compared to the template lifter, which instead yields the
type-value of the instantiation itself. -/
theorem C4_metafunction_lifter (f : List CppType → CppType)
    (xs : List CppType) (R : CppType) (h : memberType (f xs) = some R) :
    metafunction f (List.map type xs) = some (type R) ∧
    template_ f (List.map type xs) = some (type (f xs)) := by
  constructor
  · simp [metafunction, memberTypes_map_type, h]
  · simp [template_, memberTypes_map_type]

theorem C4_metafunction_lifter_witness :
    memberType (is_same [CppType.intT, CppType.charT]) =
      some (CppType.integralConstantBool false) ∧
    (metafunction is_same (List.map type [CppType.intT, CppType.charT]) =
      some (type (CppType.integralConstantBool false)) ∧
    template_ is_same (List.map type [CppType.intT, CppType.charT]) =
      some (type (is_same [CppType.intT, CppType.charT]))) :=
  ⟨by decide,
    C4_metafunction_lifter is_same [CppType.intT, CppType.charT]
      (CppType.integralConstantBool false) (by decide)⟩

/-- C5: for an MPL-style metafunction class whose nested apply instantiation
on the given types exposes the nested result R, invoking the metafunction
class lifter on the corresponding type-values yields the type-value of R,
the transformer being invoked through its nested apply member. -/
theorem C5_metafunction_class_lifter (F : MetafunctionClass)
    (xs : List CppType) (R : CppType)
    (h : memberType (F.apply xs) = some R) :
    metafunction_class F (List.map type xs) = some (type R) := by
  simp [metafunction_class, memberTypes_map_type, h]

theorem C5_metafunction_class_lifter_witness :
    memberType ((MetafunctionClass.mk is_same).apply
      [CppType.intT, CppType.intT]) =
      some (CppType.integralConstantBool true) ∧
    metafunction_class (MetafunctionClass.mk is_same)
      (List.map type [CppType.intT, CppType.intT]) =
      some (type (CppType.integralConstantBool true)) :=
  ⟨by decide,
    C5_metafunction_class_lifter (MetafunctionClass.mk is_same)
      [CppType.intT, CppType.intT] (CppType.integralConstantBool true)
      (by decide)⟩

/-- C6: invoking the trait lifter on the type-values of a sequence of types
yields exactly a freshly default-constructed instance of the transformer
applied to those types, returned directly rather than wrapped as a
type-value. -/
theorem C6_trait_lifter (f : List CppType → CppType) (xs : List CppType) :
    trait f (List.map type xs) = some (defaultConstruct (f xs)) := by
  simp [trait, memberTypes_map_type]

/-- C7: the unary plus operation on any expression denoting a type-value
preserves the denoted object, hence the represented type, regardless of the
value category of the expression; its result is an rvalue and the operation
is idempotent. -/
theorem C7_unary_plus (e : TypeExpr) (c : ValueCategory) (T : CppType) :
    (opPlus e).val = e.val ∧
    (opPlus e).cat = ValueCategory.rvalue ∧
    opPlus (opPlus e) = opPlus e ∧
    (opPlus (TypeExpr.mk c (type T))).val = type T :=
  ⟨rfl, rfl, rfl, rfl⟩

/-- C8: lifting the standard is_same template via the template lifter and
invoking it on the type-values for int and int yields the type-value of a
compile-time-true constant; on the type-values for int and double it yields
the type-value of a compile-time-false constant. -/
theorem C8_is_same_concrete :
    template_ is_same [type CppType.intT, type CppType.intT] =
      some (type (CppType.isSameT CppType.intT CppType.intT)) ∧
    constValue (CppType.isSameT CppType.intT CppType.intT) = some true ∧
    template_ is_same [type CppType.intT, type CppType.doubleT] =
      some (type (CppType.isSameT CppType.intT CppType.doubleT)) ∧
    constValue (CppType.isSameT CppType.intT CppType.doubleT) = some false := by
  decide

/-- C9: the nested lookup on the static type of the type-value of T yields
exactly T, so wrapping a type and then looking it up is the identity on
types. -/
theorem C9_nested_lookup_identity (T : CppType) :
    memberType (type T).ty = some T :=
  rfl

/-- C10: every lifted callable of the facility ignores the runtime values of
its arguments: two argument tuples whose elements have pairwise identical
static types produce equal results under every adapter. -/
theorem C10_lifters_ignore_values (f : List CppType → CppType)
    (F : MetafunctionClass) (xs ys : List Object) (x y : Object)
    (h : List.map Object.ty xs = List.map Object.ty ys)
    (hx : x.ty = y.ty) :
    template_ f xs = template_ f ys ∧
    metafunction f xs = metafunction f ys ∧
    metafunction_class F xs = metafunction_class F ys ∧
    trait f xs = trait f ys ∧
    trait_ f xs = trait_ f ys ∧
    decltype_ x = decltype_ y := by
  have hm := memberTypes_congr xs ys h
  refine ⟨?_, ?_, ?_, ?_, ?_, ?_⟩ <;>
    simp [template_, metafunction, metafunction_class, trait, trait_,
      decltype_, hm, h, hx]

theorem C10_lifters_ignore_values_witness :
    List.map Object.ty [Object.mk (CppType.typeTag CppType.intT) 0,
        Object.mk (CppType.typeTag CppType.doubleT) 3] =
      List.map Object.ty [Object.mk (CppType.typeTag CppType.intT) 7,
        Object.mk (CppType.typeTag CppType.doubleT) 4] ∧
    (Object.mk CppType.intT 3).ty = (Object.mk CppType.intT 4).ty ∧
    (template_ is_same [Object.mk (CppType.typeTag CppType.intT) 0,
        Object.mk (CppType.typeTag CppType.doubleT) 3] =
      template_ is_same [Object.mk (CppType.typeTag CppType.intT) 7,
        Object.mk (CppType.typeTag CppType.doubleT) 4] ∧
    metafunction is_same [Object.mk (CppType.typeTag CppType.intT) 0,
        Object.mk (CppType.typeTag CppType.doubleT) 3] =
      metafunction is_same [Object.mk (CppType.typeTag CppType.intT) 7,
        Object.mk (CppType.typeTag CppType.doubleT) 4] ∧
    metafunction_class (MetafunctionClass.mk is_same)
        [Object.mk (CppType.typeTag CppType.intT) 0,
          Object.mk (CppType.typeTag CppType.doubleT) 3] =
      metafunction_class (MetafunctionClass.mk is_same)
        [Object.mk (CppType.typeTag CppType.intT) 7,
          Object.mk (CppType.typeTag CppType.doubleT) 4] ∧
    trait is_same [Object.mk (CppType.typeTag CppType.intT) 0,
        Object.mk (CppType.typeTag CppType.doubleT) 3] =
      trait is_same [Object.mk (CppType.typeTag CppType.intT) 7,
        Object.mk (CppType.typeTag CppType.doubleT) 4] ∧
    trait_ is_same [Object.mk (CppType.typeTag CppType.intT) 0,
        Object.mk (CppType.typeTag CppType.doubleT) 3] =
      trait_ is_same [Object.mk (CppType.typeTag CppType.intT) 7,
        Object.mk (CppType.typeTag CppType.doubleT) 4] ∧
    decltype_ (Object.mk CppType.intT 3) =
      decltype_ (Object.mk CppType.intT 4)) :=
  ⟨rfl, rfl,
    C10_lifters_ignore_values is_same (MetafunctionClass.mk is_same)
      [Object.mk (CppType.typeTag CppType.intT) 0,
        Object.mk (CppType.typeTag CppType.doubleT) 3]
      [Object.mk (CppType.typeTag CppType.intT) 7,
        Object.mk (CppType.typeTag CppType.doubleT) 4]
      (Object.mk CppType.intT 3) (Object.mk CppType.intT 4) rfl rfl⟩

end Hana
